import Mathlib

/-
Verification of the InboxIntel backend (src/backend/app.py) against its
natural-language specification.

The development shallowly embeds the Flask service: Python JSON-like values
become the inductive `PVal`; byte strings are abstracted by whether they
decode as UTF-8 (`Bytes`); `json.loads` is modelled by a fueled recursive
descent parser over character lists; the MongoDB collections become typed
lists inside `DB`; the two external collaborators (the AWS Lambda invocation
and the Google OAuth exchange/profile endpoints) become oracle arguments.
Exceptions raised by Python code are modelled with `Except PyErr`; the
top-level `try/except` of each handler is an explicit catch.
-/

namespace InboxIntel

/-- Python byte strings, abstracted to their UTF-8 decodability: `utf8 s`
stands for the encoding of `s`; `invalid tag` stands for a non-empty byte
string that does not decode as UTF-8. -/
inductive Bytes where
  | utf8 (s : String)
  | invalid (tag : Nat)
  deriving DecidableEq

/-- UTF-8 decoding of a modelled byte string (`bytes.decode` in app.py). -/
def Bytes.decode : Bytes → Option String
  | .utf8 s => some s
  | .invalid _ => Option.none

/-- Python values that can flow through the handlers: JSON-like data plus raw
byte strings (the Lambda payload before decoding). -/
inductive PVal where
  | none
  | bool (b : Bool)
  | int (n : Int)
  | str (s : String)
  | bytes (b : Bytes)
  | list (xs : List PVal)
  | dict (fs : List (String × PVal))

/-- Python truthiness, as used by `request.json or {}` and
`if response.get('FunctionError')`. -/
def pyTruthy : PVal → Bool
  | PVal.none => false
  | PVal.bool b => b
  | PVal.int n => n != 0
  | PVal.str s => s != ""
  | PVal.bytes (Bytes.utf8 s) => s != ""
  | PVal.bytes (Bytes.invalid _) => true
  | PVal.list xs => !xs.isEmpty
  | PVal.dict fs => !fs.isEmpty

/-- Equality test of a Python value against an int literal, as in
`status_code != 200` (a non-int never equals an int in our value space). -/
def pvalEqInt (v : PVal) (n : Int) : Bool :=
  match v with
  | PVal.int m => m == n
  | _ => false

/-- First-match association lookup in a parsed JSON object (Python `dict`
lookup; the parser keeps keys unique). -/
def lookupField : List (String × PVal) → String → Option PVal
  | [], _ => Option.none
  | (k, v) :: fs, q => if k == q then some v else lookupField fs q

/-- Remove every binding of a key (helper for duplicate-key handling in the
parser, mirroring Python dict insertion semantics). -/
def removeField : List (String × PVal) → String → List (String × PVal)
  | [], _ => []
  | (k, v) :: fs, q => if k == q then removeField fs q else (k, v) :: removeField fs q

/-- Combine a parsed object field with the fields parsed after it: a later
duplicate key keeps the first position but the later value, as in Python. -/
def combineField (k : String) (v : PVal) (fs : List (String × PVal)) :
    List (String × PVal) :=
  match lookupField fs k with
  | some v2 => (k, v2) :: removeField fs k
  | Option.none => (k, v) :: fs

/-- Python `dict.get(key, default)` on the fields of a parsed object. -/
def dictGetD (fs : List (String × PVal)) (k : String) (d : PVal) : PVal :=
  match lookupField fs k with
  | some v => v
  | Option.none => d

/-- A raised Python exception, carrying the text that `str(e)` would show. -/
structure PyErr where
  msg : String
  deriving DecidableEq

/-- Python `value.get(key, default)`: field lookup on a dict, an
`AttributeError` on anything else (as raised by `data.get('days', 7)` when
the request body is not an object). -/
def pyGetD (v : PVal) (k : String) (d : PVal) : Except PyErr PVal :=
  match v with
  | PVal.dict fs => Except.ok (dictGetD fs k d)
  | _ => Except.error ⟨"AttributeError: object has no attribute get"⟩

/-- Whitespace characters recognised by Python `str.strip()` (restricted to
the ASCII ones that can occur in our inputs). -/
def pyIsSpace (c : Char) : Bool :=
  match c with
  | ' ' => true
  | '\t' => true
  | '\n' => true
  | '\r' => true
  | '\x0b' => true
  | '\x0c' => true
  | _ => false

/-- Drop leading whitespace from a character list. -/
def dropWs : List Char → List Char
  | [] => []
  | c :: cs => if pyIsSpace c then dropWs cs else c :: cs

/-- Python `str.strip()`. -/
def pyStrip (s : String) : String :=
  String.mk (dropWs ((dropWs s.data.reverse).reverse))

/-- Python `s.startswith(c)` for a single character. -/
def startsWithChar (s : String) (c : Char) : Bool :=
  match s.data with
  | [] => false
  | c2 :: _ => decide (c2 = c)

/-! JSON parser modelling `json.loads`: recursive descent over a character
list, with a fuel argument making the recursion structural. -/

/-- JSON whitespace (RFC 8259) skipped by `json.loads`. -/
def isWsChar (c : Char) : Bool :=
  match c with
  | ' ' => true
  | '\t' => true
  | '\n' => true
  | '\r' => true
  | _ => false

/-- Skip JSON whitespace. -/
def skipWs : List Char → List Char
  | [] => []
  | c :: cs => if isWsChar c then skipWs cs else c :: cs

/-- Translate a JSON string escape character. -/
def escChar (e : Char) : Option Char :=
  if e == 'n' then some '\n'
  else if e == 't' then some '\t'
  else if e == 'r' then some '\r'
  else if e == 'b' then some '\x08'
  else if e == 'f' then some '\x0c'
  else if e == '"' || e == '\\' || e == '/' then some e
  else Option.none

/-- Parse the body of a JSON string after the opening quote, returning the
string contents and the remaining characters. -/
def parseStrChars : List Char → Option (List Char × List Char)
  | [] => Option.none
  | '"' :: rest => some ([], rest)
  | '\\' :: e :: rest =>
    match escChar e with
    | some c =>
      match parseStrChars rest with
      | some (cs, r) => some (c :: cs, r)
      | Option.none => Option.none
    | Option.none => Option.none
  | c :: rest =>
    match parseStrChars rest with
    | some (cs, r) => some (c :: cs, r)
    | Option.none => Option.none

/-- Take a maximal run of decimal digits. -/
def takeDigits : List Char → (List Char × List Char)
  | [] => ([], [])
  | c :: cs =>
    if c.isDigit then
      match takeDigits cs with
      | (ds, r) => (c :: ds, r)
    else ([], c :: cs)

/-- Decimal digits to a natural number. -/
def digitsToNat (ds : List Char) : Nat :=
  ds.foldl (fun a c => a * 10 + (c.toNat - 48)) 0

/-- Expect a literal run of characters (for `true`, `false`, `null`). -/
def expectLit : List Char → List Char → Option (List Char)
  | [], cs => some cs
  | l :: ls, c :: cs => if c == l then expectLit ls cs else Option.none
  | _ :: _, [] => Option.none

/-- Parser mode: a JSON value, the fields of an object after `{`, or the
items of an array after `[`. -/
inductive PMode where
  | value
  | fields
  | items

/-- Parser result for each mode. -/
inductive PRes where
  | val (v : PVal)
  | fields (fs : List (String × PVal))
  | items (xs : List PVal)

/-- One recursive-descent JSON parser for all three modes, structurally
recursive on the fuel. -/
def parseStep : Nat → PMode → List Char → Option (PRes × List Char)
  | 0, _, _ => Option.none
  | Nat.succ fuel, PMode.value, cs0 =>
    match skipWs cs0 with
    | [] => Option.none
    | c :: rest =>
      if c == '{' then
        match skipWs rest with
        | '}' :: r2 => some (PRes.val (PVal.dict []), r2)
        | _ =>
          match parseStep fuel PMode.fields rest with
          | some (PRes.fields fs, r) => some (PRes.val (PVal.dict fs), r)
          | _ => Option.none
      else if c == '[' then
        match skipWs rest with
        | ']' :: r2 => some (PRes.val (PVal.list []), r2)
        | _ =>
          match parseStep fuel PMode.items rest with
          | some (PRes.items xs, r) => some (PRes.val (PVal.list xs), r)
          | _ => Option.none
      else if c == '"' then
        match parseStrChars rest with
        | some (scs, r) => some (PRes.val (PVal.str (String.mk scs)), r)
        | Option.none => Option.none
      else if c == '-' then
        match takeDigits rest with
        | ([], _) => Option.none
        | (ds, r) => some (PRes.val (PVal.int (-(Int.ofNat (digitsToNat ds)))), r)
      else if c == 't' then
        match expectLit ['r', 'u', 'e'] rest with
        | some r => some (PRes.val (PVal.bool true), r)
        | Option.none => Option.none
      else if c == 'f' then
        match expectLit ['a', 'l', 's', 'e'] rest with
        | some r => some (PRes.val (PVal.bool false), r)
        | Option.none => Option.none
      else if c == 'n' then
        match expectLit ['u', 'l', 'l'] rest with
        | some r => some (PRes.val PVal.none, r)
        | Option.none => Option.none
      else if c.isDigit then
        match takeDigits (c :: rest) with
        | ([], _) => Option.none
        | (ds, r) => some (PRes.val (PVal.int (Int.ofNat (digitsToNat ds))), r)
      else Option.none
  | Nat.succ fuel, PMode.fields, cs0 =>
    match skipWs cs0 with
    | '"' :: rest =>
      match parseStrChars rest with
      | Option.none => Option.none
      | some (kcs, r1) =>
        match skipWs r1 with
        | ':' :: r2 =>
          match parseStep fuel PMode.value r2 with
          | some (PRes.val v, r3) =>
            (match skipWs r3 with
             | ',' :: r4 =>
               match parseStep fuel PMode.fields r4 with
               | some (PRes.fields fs, r5) =>
                 some (PRes.fields (combineField (String.mk kcs) v fs), r5)
               | _ => Option.none
             | '}' :: r4 => some (PRes.fields [(String.mk kcs, v)], r4)
             | _ => Option.none)
          | _ => Option.none
        | _ => Option.none
    | _ => Option.none
  | Nat.succ fuel, PMode.items, cs0 =>
    match parseStep fuel PMode.value cs0 with
    | some (PRes.val v, r1) =>
      (match skipWs r1 with
       | ',' :: r2 =>
         match parseStep fuel PMode.items r2 with
         | some (PRes.items xs, r3) => some (PRes.items (v :: xs), r3)
         | _ => Option.none
       | ']' :: r2 => some (PRes.items [v], r2)
       | _ => Option.none)
    | _ => Option.none

/-- Python `json.loads` on a string: parse one JSON value and require that
only whitespace remains.  The fuel `2 * length + 2` strictly dominates the
recursion depth, which consumes at least one character every two steps. -/
def json_loads (s : String) : Option PVal :=
  match parseStep (2 * s.data.length + 2) PMode.value s.data with
  | some (PRes.val v, rest) =>
    if (skipWs rest).isEmpty then some v else Option.none
  | _ => Option.none

/-- Python `json.loads` on a byte string (app.py calls it on the raw Lambda
payload): decode as UTF-8, then parse; either failure raises. -/
def json_loadsBytes (b : Bytes) : Except PyErr PVal :=
  match b.decode with
  | Option.none => Except.error ⟨"UnicodeDecodeError: invalid utf-8"⟩
  | some s =>
    match json_loads s with
    | some v => Except.ok v
    | Option.none => Except.error ⟨"JSONDecodeError: Expecting value"⟩

/-- The string case of `try_json` in app.py lines 194-200: strip, and if the
result looks like a JSON object or array, attempt to parse it, keeping the
original string on failure. -/
def try_jsonStr (x : String) : PVal :=
  let s := pyStrip x
  if startsWithChar s '{' || startsWithChar s '[' then
    match json_loads s with
    | some v => v
    | Option.none => PVal.str x
  else PVal.str x

/-- `try_json` from app.py lines 187-201: bytes are UTF-8 decoded first
(returned unchanged if undecodable, and note that a decoded-but-unparseable
byte string yields the decoded string, since the local `x` was rebound);
strings get the opportunistic parse; anything else is returned unchanged. -/
def try_json : PVal → PVal
  | PVal.bytes (Bytes.utf8 s) => try_jsonStr s
  | PVal.bytes (Bytes.invalid t) => PVal.bytes (Bytes.invalid t)
  | PVal.str s => try_jsonStr s
  | v => v

/-! Data model: the three MongoDB collections of app.py as typed lists. -/

/-- A document of `users_collection`: the upsert in `oauth2callback` always
writes exactly these four fields. -/
structure UserDoc where
  email : String
  credentials : PVal
  created_at : Nat
  last_sync : Option Nat

/-- A document of `reports_collection`, with the generated `inserted_id`. -/
structure ReportDoc where
  user_email : String
  report : PVal
  days : PVal
  created_at : Nat
  rid : Nat

/-- A document of `oauth_states_collection`. -/
structure StateDoc where
  sid : Nat
  state : String
  created_at : Nat
  expires_at : Nat
  deriving DecidableEq

/-- The MongoDB state: the three collections, plus the id generator for
`insert_one` (ObjectIds abstracted to naturals). -/
structure DB where
  users : List UserDoc
  reports : List ReportDoc
  oauthStates : List StateDoc
  nextId : Nat

/-- `users_collection.find_one({'email': e})`: first matching document. -/
def findUser : List UserDoc → String → Option UserDoc
  | [], _ => Option.none
  | u :: us, e => if u.email == e then some u else findUser us e

/-- `users_collection.update_one({'email': e}, {'$set': doc}, upsert=True)`
where `doc` sets every field of the document: replace the first matching
document wholesale, inserting when no document matches. -/
def upsertUser : List UserDoc → String → UserDoc → List UserDoc
  | [], _, d => [d]
  | u :: us, e, d => if u.email == e then d :: us else u :: upsertUser us e d

/-- `users_collection.update_one({'email': e}, {'$set': {'last_sync': t}})`:
update only `last_sync` on the first matching document, no upsert. -/
def setLastSync : List UserDoc → String → Nat → List UserDoc
  | [], _, _ => []
  | u :: us, e, t =>
    if u.email == e then { u with last_sync := some t } :: us
    else u :: setLastSync us e t

/-- `oauth_states_collection.find_one({'state': st, 'expires_at': {'$gt':
now}})`: first document with this state value that has not expired. -/
def findState : List StateDoc → String → Nat → Option StateDoc
  | [], _, _ => Option.none
  | d :: ds, st, now =>
    if d.state == st && decide (now < d.expires_at) then some d
    else findState ds st now

/-- `oauth_states_collection.delete_one({'_id': i})`: remove the first
document with this id. -/
def deleteById : List StateDoc → Nat → List StateDoc
  | [], _ => []
  | d :: ds, i => if d.sid == i then ds else d :: deleteById ds i

/-! The report-generation handler (`generate_report`, app.py lines 180-272). -/

/-- Outcome of `lambda_client.invoke`: either a response envelope (a possible
`FunctionError` flag and the `Payload` bytes), or a raised exception
(timeout, connection fault, and so on). -/
structure LambdaResponse where
  functionError : Option String
  payload : Bytes

/-- The Lambda invocation as an oracle: response or exception. -/
inductive LambdaOutcome where
  | ok (resp : LambdaResponse)
  | exn (msg : String)

/-- Truthiness of `response.get('FunctionError')`. -/
def truthyFE : Option String → Bool
  | Option.none => false
  | some s => s != ""

/-- `response['Payload'].read() or b'\x7b\x7d'`: an empty payload defaults
to the bytes of an empty JSON object. -/
def orDefaultBytes : Bytes → Bytes
  | Bytes.utf8 "" => Bytes.utf8 "\x7b\x7d"
  | b => b

/-- The stable failure shape
`{'success': False, 'report': None, 'error': {'type': kind, 'details': d}}`. -/
def errResp (kind : String) (details : PVal) : PVal :=
  PVal.dict [("success", PVal.bool false), ("report", PVal.none),
    ("error", PVal.dict [("type", PVal.str kind), ("details", details)])]

/-- The stable success shape
`{'success': True, 'report_id': str(id), 'report': body, 'error': None}`. -/
def okResp (rid : Nat) (report : PVal) : PVal :=
  PVal.dict [("success", PVal.bool true), ("report_id", PVal.str (toString rid)),
    ("report", report), ("error", PVal.none)]

/-- The defensive wrap of app.py lines 254-255: a report body that is still a
plain string becomes `{'summary': body}`. -/
def wrapSummary : PVal → PVal
  | PVal.str s => PVal.dict [("summary", PVal.str s)]
  | v => v

/-- The body of the `try:` block of `generate_report` (app.py lines 220-268),
after the Lambda invocation outcome is fixed: an `Except.error` is an
exception that the handler's own `except` clause will catch. -/
def tryBody (email : String) (days : PVal) (lam : LambdaOutcome) (now : Nat)
    (db : DB) : Except PyErr (PVal × DB) :=
  match lam with
  | LambdaOutcome.exn m => Except.error ⟨m⟩
  | LambdaOutcome.ok resp =>
    if truthyFE resp.functionError then
      match json_loadsBytes (orDefaultBytes resp.payload) with
      | Except.error e => Except.error e
      | Except.ok j => Except.ok (errResp "LambdaFunctionError" (try_json j), db)
    else
      match json_loadsBytes (orDefaultBytes resp.payload) with
      | Except.error e => Except.error e
      | Except.ok parsed =>
        match pyGetD parsed "statusCode" (PVal.int 200) with
        | Except.error e => Except.error e
        | Except.ok status_code =>
          match pyGetD parsed "body" parsed with
          | Except.error e => Except.error e
          | Except.ok bodyField =>
            if pvalEqInt status_code 200 then
              Except.ok (okResp db.nextId (wrapSummary (try_json bodyField)),
                { db with
                  reports := db.reports ++
                    [{ user_email := email,
                       report := wrapSummary (try_json bodyField),
                       days := days, created_at := now, rid := db.nextId }],
                  nextId := db.nextId + 1,
                  users := setLastSync db.users email now })
            else
              Except.ok (errResp "ReportGenerationFailed" (try_json (try_json bodyField)), db)

/-- `request.json or {}` (app.py line 207): an absent or falsy body becomes
the empty dict. -/
def dataOf : Option PVal → PVal
  | Option.none => PVal.dict []
  | some v => if pyTruthy v then v else PVal.dict []

/-- The full outcome of one `generate_report` request: the HTTP-level result
(`Except.error` meaning an exception escaped the handler uncaught), the
database afterwards, and how many times the Lambda backend and the user
collection were consulted. -/
structure GenOut where
  result : Except PyErr PVal
  db : DB
  lambdaCalls : Nat
  userLookups : Nat

/-- The `generate_report` handler (app.py lines 180-272).  Inputs: the
session (`session.get('user_email')`), the parsed request body
(`request.json`), the Lambda invocation outcome, and the current time.  Note
that the session check precedes everything, that `data.get('days', 7)` and
the user lookup happen before the `try:` block (so an `AttributeError` from a
non-dict body escapes uncaught), and that the `except` clause converts any
exception inside the block into the Server failure shape. -/
def generate_report (db : DB) (sess : Option String) (reqBody : Option PVal)
    (lam : LambdaOutcome) (now : Nat) : GenOut :=
  match sess with
  | Option.none =>
    ⟨Except.ok (errResp "Auth" (PVal.str "Not authenticated")), db, 0, 0⟩
  | some user_email =>
    match pyGetD (dataOf reqBody) "days" (PVal.int 7) with
    | Except.error e => ⟨Except.error e, db, 0, 0⟩
    | Except.ok days =>
      match findUser db.users user_email with
      | Option.none =>
        ⟨Except.ok (errResp "NotFound" (PVal.str "User not found")), db, 0, 1⟩
      | some _ =>
        match tryBody user_email days lam now db with
        | Except.ok (r, db1) => ⟨Except.ok r, db1, 1, 1⟩
        | Except.error e =>
          ⟨Except.ok (errResp "Server" (PVal.str e.msg)), db, 1, 1⟩

/-! The OAuth callback handler (`oauth2callback`, app.py lines 89-159). -/

/-- Outcome of `flow.fetch_token` plus reading `flow.credentials`: the
credentials block that would be stored, or a raised exception. -/
inductive ExchangeOutcome where
  | ok (creds : PVal)
  | exn (msg : String)

/-- Outcome of the Gmail profile lookup: the user email or an exception. -/
inductive ProfileOutcome where
  | ok (email : String)
  | exn (msg : String)

/-- The four observable outcomes of the callback handler. -/
inductive CbResult where
  | missingState
  | invalidOrExpiredState
  | success
  | serverError (msg : String)
  deriving DecidableEq

/-- Outcome of one `oauth2callback` request: the result, the database
afterwards, and the session binding established (if any). -/
structure CbOut where
  result : CbResult
  db : DB
  sessionUser : Option String

/-- The `oauth2callback` handler (app.py lines 89-159): validate the state
against the ledger with an unexpired-only predicate, delete the matched state
document immediately, then exchange the code and look up the profile (both
oracles here), and finally upsert the user document — whose `$set` payload
includes `last_sync: None` — and bind the session. -/
def oauth2callback (db : DB) (urlState : Option String) (now : Nat)
    (ex : ExchangeOutcome) (pr : ProfileOutcome) : CbOut :=
  match urlState with
  | Option.none => ⟨CbResult.missingState, db, Option.none⟩
  | some st =>
    match findState db.oauthStates st now with
    | Option.none => ⟨CbResult.invalidOrExpiredState, db, Option.none⟩
    | some sdoc =>
      let db1 : DB := { db with oauthStates := deleteById db.oauthStates sdoc.sid }
      match ex with
      | ExchangeOutcome.exn m => ⟨CbResult.serverError m, db1, Option.none⟩
      | ExchangeOutcome.ok creds =>
        match pr with
        | ProfileOutcome.exn m => ⟨CbResult.serverError m, db1, Option.none⟩
        | ProfileOutcome.ok email =>
          let userData : UserDoc :=
            { email := email, credentials := creds, created_at := now,
              last_sync := Option.none }
          let db2 : DB := { db1 with users := upsertUser db1.users email userData }
          ⟨CbResult.success, db2, some email⟩

/-! Shape predicates and fixtures used by the claims. -/

/-- The closed set of error kinds of the Report Generation Proxy. -/
def errKinds : List String :=
  ["Auth", "NotFound", "LambdaFunctionError", "ReportGenerationFailed", "Server"]

/-- A response value is one of the two stable outcome shapes: success with a
`report_id` string and a report, or failure with an error whose `type` is
drawn from `errKinds`. -/
def stableShape (r : PVal) : Bool :=
  match r with
  | PVal.dict [(k1, PVal.bool true), (k2, PVal.str _), (k3, _), (k4, PVal.none)] =>
    k1 == "success" && k2 == "report_id" && k3 == "report" && k4 == "error"
  | PVal.dict [(k1, PVal.bool false), (k2, PVal.none),
      (k3, PVal.dict [(k4, PVal.str t), (k5, _)])] =>
    k1 == "success" && k2 == "report" && k3 == "error" && k4 == "type" &&
      k5 == "details" && errKinds.contains t
  | _ => false

/-- Request bodies on which the days extraction cannot raise: absent, falsy,
or a JSON object. -/
def bodyOkB : Option PVal → Bool
  | Option.none => true
  | some (PVal.dict _) => true
  | some v => !pyTruthy v

/-- Is the value a JSON object (a mapping)? -/
def isObjB : PVal → Bool
  | PVal.dict _ => true
  | _ => false

/-- Is the value a bare string? -/
def isStrB : PVal → Bool
  | PVal.str _ => true
  | _ => false

/-- Fixture: a stored credentials block. -/
def creds0 : PVal := PVal.dict [("token", PVal.str "tok0")]

/-- Fixture: an authenticated user with no previous sync. -/
def user0 : UserDoc :=
  { email := "u@example.com", credentials := creds0, created_at := 0,
    last_sync := Option.none }

/-- Fixture: a database holding exactly `user0`. -/
def db0 : DB := { users := [user0], reports := [], oauthStates := [], nextId := 0 }

/-- Fixture: a database with a user that has already synced (`last_sync = 5`)
and one live handshake state. -/
def dbC3 : DB :=
  { users := [{ email := "u@example.com", credentials := creds0, created_at := 0,
                last_sync := some 5 }],
    reports := [],
    oauthStates := [{ sid := 0, state := "st1", created_at := 0, expires_at := 100 }],
    nextId := 1 }

/-! Helper lemmas about the JSON parser and `try_json`. -/

theorem parseStep_value_obj (fuel : Nat) (cs0 rest : List Char) (res : PRes) (r : List Char)
    (hsw : skipWs cs0 = '{' :: rest)
    (h : parseStep (Nat.succ fuel) PMode.value cs0 = some (res, r)) :
    ∃ fs, res = PRes.val (PVal.dict fs) := by
  simp only [parseStep, hsw] at h
  rw [if_pos (by decide : ('{' == '{') = true)] at h
  split at h
  · injection h with h1
    injection h1 with h2 h3
    exact ⟨[], h2.symm⟩
  · split at h
    · injection h with h1
      injection h1 with h2 h3
      exact ⟨_, h2.symm⟩
    · exact Option.noConfusion h

theorem parseStep_value_arr (fuel : Nat) (cs0 rest : List Char) (res : PRes) (r : List Char)
    (hsw : skipWs cs0 = '[' :: rest)
    (h : parseStep (Nat.succ fuel) PMode.value cs0 = some (res, r)) :
    ∃ xs, res = PRes.val (PVal.list xs) := by
  simp only [parseStep, hsw] at h
  rw [if_neg (by decide : ¬ ('[' == '{') = true),
      if_pos (by decide : ('[' == '[') = true)] at h
  split at h
  · injection h with h1
    injection h1 with h2 h3
    exact ⟨[], h2.symm⟩
  · split at h
    · injection h with h1
      injection h1 with h2 h3
      exact ⟨_, h2.symm⟩
    · exact Option.noConfusion h

theorem json_loads_obj (s : String) (v : PVal)
    (hs : startsWithChar s '{' = true) (h : json_loads s = some v) :
    ∃ fs, v = PVal.dict fs := by
  unfold json_loads at h
  cases hd : s.data with
  | nil =>
    simp only [startsWithChar, hd] at hs
    exact Bool.noConfusion hs
  | cons c cs =>
    simp only [startsWithChar, hd] at hs
    have hc : c = '{' := of_decide_eq_true hs
    subst hc
    rw [hd] at h
    cases hp : parseStep (2 * (('{' :: cs) : List Char).length + 2) PMode.value ('{' :: cs) with
    | none => rw [hp] at h; exact Option.noConfusion h
    | some pr =>
      obtain ⟨res, rest⟩ := pr
      obtain ⟨fs, rfl⟩ := parseStep_value_obj _ _ _ _ _ (by rfl) hp
      rw [hp] at h
      have h2 : (if (skipWs rest).isEmpty = true then some (PVal.dict fs) else Option.none) = some v := h
      split at h2
      · exact ⟨fs, (Option.some.inj h2).symm⟩
      · exact Option.noConfusion h2

theorem json_loads_arr (s : String) (v : PVal)
    (hs : startsWithChar s '[' = true) (h : json_loads s = some v) :
    ∃ xs, v = PVal.list xs := by
  unfold json_loads at h
  cases hd : s.data with
  | nil =>
    simp only [startsWithChar, hd] at hs
    exact Bool.noConfusion hs
  | cons c cs =>
    simp only [startsWithChar, hd] at hs
    have hc : c = '[' := of_decide_eq_true hs
    subst hc
    rw [hd] at h
    cases hp : parseStep (2 * (('[' :: cs) : List Char).length + 2) PMode.value ('[' :: cs) with
    | none => rw [hp] at h; exact Option.noConfusion h
    | some pr =>
      obtain ⟨res, rest⟩ := pr
      obtain ⟨xs, rfl⟩ := parseStep_value_arr _ _ _ _ _ (by rfl) hp
      rw [hp] at h
      have h2 : (if (skipWs rest).isEmpty = true then some (PVal.list xs) else Option.none) = some v := h
      split at h2
      · exact ⟨xs, (Option.some.inj h2).symm⟩
      · exact Option.noConfusion h2

theorem tryJsonStr_fix (x : String) : try_json (try_jsonStr x) = try_jsonStr x := by
  unfold try_jsonStr
  cases h1 : startsWithChar (pyStrip x) '{' with
  | true =>
    rw [if_pos (by rw [h1]; rfl)]
    cases hp : json_loads (pyStrip x) with
    | none =>
      show try_jsonStr x = PVal.str x
      unfold try_jsonStr
      rw [if_pos (by rw [h1]; rfl), hp]
    | some v =>
      obtain ⟨fs, rfl⟩ := json_loads_obj _ _ h1 hp
      rfl
  | false =>
    cases h2 : startsWithChar (pyStrip x) '[' with
    | true =>
      rw [if_pos (by rw [h1, h2]; rfl)]
      cases hp : json_loads (pyStrip x) with
      | none =>
        show try_jsonStr x = PVal.str x
        unfold try_jsonStr
        rw [if_pos (by rw [h1, h2]; rfl), hp]
      | some v =>
        obtain ⟨xs, rfl⟩ := json_loads_arr _ _ h2 hp
        rfl
    | false =>
      rw [if_neg (by rw [h1, h2]; exact Bool.false_ne_true)]
      show try_jsonStr x = PVal.str x
      unfold try_jsonStr
      rw [if_neg (by rw [h1, h2]; exact Bool.false_ne_true)]

theorem tryJson_idem (v : PVal) : try_json (try_json v) = try_json v := by
  cases v with
  | bytes b =>
    cases b with
    | utf8 s => exact tryJsonStr_fix s
    | invalid t => rfl
  | str s => exact tryJsonStr_fix s
  | none => rfl
  | bool b => rfl
  | int n => rfl
  | list xs => rfl
  | dict fs => rfl

/-! Evaluation lemmas for the report-generation handler. -/

theorem tryBody_shape (e : String) (days : PVal) (lam : LambdaOutcome) (now : Nat)
    (db : DB) (r : PVal) (db1 : DB)
    (h : tryBody e days lam now db = Except.ok (r, db1)) : stableShape r = true := by
  unfold tryBody at h
  split at h
  · exact Except.noConfusion h
  · split at h
    · split at h
      · exact Except.noConfusion h
      · injection h with h1
        injection h1 with h2 h3
        subst h2
        rfl
    · split at h
      · exact Except.noConfusion h
      · split at h
        · exact Except.noConfusion h
        · split at h
          · exact Except.noConfusion h
          · split at h
            · injection h with h1
              injection h1 with h2 h3
              subst h2
              rfl
            · injection h with h1
              injection h1 with h2 h3
              subst h2
              rfl

theorem generate_report_eval (db : DB) (e : String) (rb : Option PVal)
    (lam : LambdaOutcome) (now : Nat) (days : PVal)
    (hb : pyGetD (dataOf rb) "days" (PVal.int 7) = Except.ok days)
    (hu : (findUser db.users e).isSome = true) :
    generate_report db (some e) rb lam now =
      (match tryBody e days lam now db with
       | Except.ok (r, db1) => ⟨Except.ok r, db1, 1, 1⟩
       | Except.error er => ⟨Except.ok (errResp "Server" (PVal.str er.msg)), db, 1, 1⟩) := by
  unfold generate_report
  dsimp only
  rw [hb]
  cases hu2 : findUser db.users e with
  | none => rw [hu2] at hu; exact Bool.noConfusion hu
  | some u => rfl

theorem tryBody_fe (e : String) (days : PVal) (now : Nat) (db : DB)
    (fe : Option String) (pl : Bytes) (j : PVal)
    (hfe : truthyFE fe = true)
    (hj : json_loadsBytes (orDefaultBytes pl) = Except.ok j) :
    tryBody e days (LambdaOutcome.ok ⟨fe, pl⟩) now db =
      Except.ok (errResp "LambdaFunctionError" (try_json j), db) := by
  unfold tryBody
  dsimp only
  rw [if_pos hfe, hj]

theorem tryBody_success (e : String) (days : PVal) (now : Nat) (db : DB)
    (fe : Option String) (pl : Bytes) (fs : List (String × PVal))
    (hfe : truthyFE fe = false)
    (hp : json_loadsBytes (orDefaultBytes pl) = Except.ok (PVal.dict fs))
    (hsc : pvalEqInt (dictGetD fs "statusCode" (PVal.int 200)) 200 = true) :
    tryBody e days (LambdaOutcome.ok ⟨fe, pl⟩) now db =
      Except.ok (okResp db.nextId (wrapSummary (try_json (dictGetD fs "body" (PVal.dict fs)))),
        { db with
          reports := db.reports ++
            [{ user_email := e,
               report := wrapSummary (try_json (dictGetD fs "body" (PVal.dict fs))),
               days := days, created_at := now, rid := db.nextId }],
          nextId := db.nextId + 1,
          users := setLastSync db.users e now }) := by
  unfold tryBody
  dsimp only
  rw [if_neg (by rw [hfe]; exact Bool.false_ne_true), hp]
  dsimp only [pyGetD]
  rw [if_pos hsc]

theorem tryBody_non200 (e : String) (days : PVal) (now : Nat) (db : DB)
    (fe : Option String) (pl : Bytes) (fs : List (String × PVal))
    (hfe : truthyFE fe = false)
    (hp : json_loadsBytes (orDefaultBytes pl) = Except.ok (PVal.dict fs))
    (hsc : pvalEqInt (dictGetD fs "statusCode" (PVal.int 200)) 200 = false) :
    tryBody e days (LambdaOutcome.ok ⟨fe, pl⟩) now db =
      Except.ok (errResp "ReportGenerationFailed"
        (try_json (try_json (dictGetD fs "body" (PVal.dict fs)))), db) := by
  unfold tryBody
  dsimp only
  rw [if_neg (by rw [hfe]; exact Bool.false_ne_true), hp]
  dsimp only [pyGetD]
  rw [if_neg (by rw [hsc]; exact Bool.false_ne_true)]

/-! Lemmas about the stored collections and the state ledger. -/

theorem findUser_setLastSync (us : List UserDoc) (e : String) (t : Nat) (u : UserDoc)
    (h : findUser us e = some u) :
    findUser (setLastSync us e t) e = some { u with last_sync := some t } := by
  induction us with
  | nil => exact Option.noConfusion h
  | cons x xs ih =>
    simp only [findUser] at h
    by_cases hx : (x.email == e) = true
    · rw [if_pos hx] at h
      injection h with h1
      subst h1
      simp only [setLastSync]
      rw [if_pos hx]
      show (if (x.email == e) = true then
          some ({ x with last_sync := some t } : UserDoc)
        else findUser xs e) = some { x with last_sync := some t }
      rw [if_pos hx]
    · rw [if_neg hx] at h
      simp only [setLastSync]
      rw [if_neg hx]
      simp only [findUser]
      rw [if_neg hx]
      exact ih h

theorem findUser_upsertUser (us : List UserDoc) (e : String) (d : UserDoc)
    (hd : d.email = e) : findUser (upsertUser us e d) e = some d := by
  induction us with
  | nil =>
    simp only [upsertUser, findUser]
    rw [if_pos (by rw [hd]; exact beq_self_eq_true e)]
  | cons x xs ih =>
    simp only [upsertUser]
    by_cases hx : (x.email == e) = true
    · rw [if_pos hx]
      simp only [findUser]
      rw [if_pos (by rw [hd]; exact beq_self_eq_true e)]
    · rw [if_neg hx]
      simp only [findUser]
      rw [if_neg hx]
      exact ih

theorem findState_spec (l : List StateDoc) (st : String) (now : Nat) (d : StateDoc)
    (h : findState l st now = some d) :
    d ∈ l ∧ d.state = st ∧ now < d.expires_at := by
  induction l with
  | nil => exact Option.noConfusion h
  | cons x xs ih =>
    simp only [findState] at h
    by_cases hcond : (x.state == st && decide (now < x.expires_at)) = true
    · rw [if_pos hcond] at h
      injection h with h1
      subst h1
      rw [Bool.and_eq_true] at hcond
      exact ⟨List.mem_cons_self _ _, eq_of_beq hcond.1, of_decide_eq_true hcond.2⟩
    · rw [if_neg hcond] at h
      obtain ⟨hm, hs, he⟩ := ih h
      exact ⟨List.mem_cons_of_mem _ hm, hs, he⟩

theorem deleteById_no_state (l : List StateDoc) (st : String) (now : Nat) (d : StateDoc)
    (hids : (l.map StateDoc.sid).Nodup)
    (hst : ∀ d1, d1 ∈ l → ∀ d2, d2 ∈ l → d1.state = d2.state → d1 = d2)
    (hfind : findState l st now = some d) :
    ∀ e2, e2 ∈ deleteById l d.sid → e2.state ≠ st := by
  induction l with
  | nil => exact fun e2 he => absurd hfind Option.noConfusion
  | cons x xs ih =>
    simp only [List.map_cons, List.nodup_cons] at hids
    obtain ⟨hxid, hxs⟩ := hids
    simp only [findState] at hfind
    by_cases hcond : (x.state == st && decide (now < x.expires_at)) = true
    · rw [if_pos hcond] at hfind
      injection hfind with h1
      subst h1
      intro e2 he2 hst2
      simp only [deleteById] at he2
      rw [if_pos (beq_self_eq_true x.sid)] at he2
      rw [Bool.and_eq_true] at hcond
      have hxst : x.state = st := eq_of_beq hcond.1
      have he2d : e2 = x :=
        hst e2 (List.mem_cons_of_mem _ he2) x (List.mem_cons_self _ _)
          (by rw [hst2, hxst])
      subst he2d
      exact hxid (List.mem_map_of_mem StateDoc.sid he2)
    · rw [if_neg hcond] at hfind
      have hspec := findState_spec xs st now d hfind
      intro e2 he2 hst2
      simp only [deleteById] at he2
      by_cases hxd : (x.sid == d.sid) = true
      · rw [if_pos hxd] at he2
        exact hxid (eq_of_beq hxd ▸ List.mem_map_of_mem StateDoc.sid hspec.1)
      · rw [if_neg hxd] at he2
        rcases List.mem_cons.mp he2 with he2 | he2
        · subst he2
          have hxd2 : e2 = d :=
            hst e2 (List.mem_cons_self _ _) d (List.mem_cons_of_mem _ hspec.1)
              (by rw [hst2, hspec.2.1])
          apply hcond
          rw [Bool.and_eq_true]
          constructor
          · exact beq_of_eq hst2
          · exact decide_eq_true (by rw [hxd2]; exact hspec.2.2)
        · exact ih hxs
            (fun d1 h1 d2 h2 => hst d1 (List.mem_cons_of_mem _ h1) d2 (List.mem_cons_of_mem _ h2))
            hfind e2 he2 hst2

theorem findState_none_of_no_state (l : List StateDoc) (st : String) (now : Nat)
    (h : ∀ e2, e2 ∈ l → e2.state ≠ st) : findState l st now = Option.none := by
  induction l with
  | nil => rfl
  | cons x xs ih =>
    simp only [findState]
    rw [if_neg ?hc]
    · exact ih (fun e2 he => h e2 (List.mem_cons_of_mem _ he))
    case hc =>
      intro hcond
      rw [Bool.and_eq_true] at hcond
      exact h x (List.mem_cons_self _ _) (eq_of_beq hcond.1)

theorem oauth2callback_states (db : DB) (st : String) (now : Nat)
    (ex : ExchangeOutcome) (pr : ProfileOutcome) (d : StateDoc)
    (hfind : findState db.oauthStates st now = some d) :
    (oauth2callback db (some st) now ex pr).db.oauthStates =
      deleteById db.oauthStates d.sid := by
  unfold oauth2callback
  dsimp only
  rw [hfind]
  cases ex with
  | exn m => rfl
  | ok creds =>
    cases pr with
    | exn m => rfl
    | ok email => rfl

/-! The claims. -/

theorem dataOf_dict (rb : Option PVal) (hb : bodyOkB rb = true) :
    ∃ bs, dataOf rb = PVal.dict bs := by
  cases rb with
  | none => exact ⟨[], rfl⟩
  | some v =>
    cases hv : pyTruthy v with
    | false =>
      unfold dataOf
      dsimp only
      rw [if_neg (by rw [hv]; exact Bool.false_ne_true)]
      exact ⟨[], rfl⟩
    | true =>
      cases v with
      | dict fs =>
        unfold dataOf
        dsimp only
        rw [if_pos hv]
        exact ⟨fs, rfl⟩
      | none => exact Bool.noConfusion hv
      | bool b =>
        simp only [bodyOkB] at hb
        rw [hv] at hb
        exact Bool.noConfusion hb
      | int n =>
        simp only [bodyOkB] at hb
        rw [hv] at hb
        exact Bool.noConfusion hb
      | str s =>
        simp only [bodyOkB] at hb
        rw [hv] at hb
        exact Bool.noConfusion hb
      | bytes b =>
        simp only [bodyOkB] at hb
        rw [hv] at hb
        exact Bool.noConfusion hb
      | list xs =>
        simp only [bodyOkB] at hb
        rw [hv] at hb
        exact Bool.noConfusion hb

/-- C9: a call with no resolvable session returns the Auth failure shape,
does not touch the user collection, and performs zero Lambda invocations. -/
theorem generate_report_no_session_auth (db : DB) (rb : Option PVal)
    (lam : LambdaOutcome) (now : Nat) :
    generate_report db Option.none rb lam now =
      ⟨Except.ok (errResp "Auth" (PVal.str "Not authenticated")), db, 0, 0⟩ := rfl

/-- C10: the opportunistic body normalization `try_json` is idempotent, so
the repeated application on the non-200 path cannot change the details. -/
theorem try_json_idempotent (x : PVal) : try_json (try_json x) = try_json x :=
  tryJson_idem x

/-- C1 counterexample: with a session present and a truthy non-object request
body (the JSON array `[1]`), `data.get('days', 7)` raises an AttributeError
before the `try:` block, so the exception escapes the handler instead of any
stable outcome shape. -/
theorem generate_report_nondict_body_raises :
    (generate_report db0 (some "u@example.com") (some (PVal.list [PVal.int 1]))
        (LambdaOutcome.ok ⟨Option.none, Bytes.utf8 "\x7b\x7d"⟩) 0).result =
      Except.error ⟨"AttributeError: object has no attribute get"⟩ := rfl

/-- C1 (amended): for every session, external-compute outcome and request
body that is absent, falsy, or a JSON object, the handler returns exactly one
of the stable outcome shapes, with every failure kind drawn from the closed
set; no exception propagates. -/
theorem generate_report_stable_shape (db : DB) (sess : Option String)
    (rb : Option PVal) (lam : LambdaOutcome) (now : Nat)
    (hb : bodyOkB rb = true) :
    ∃ r, (generate_report db sess rb lam now).result = Except.ok r ∧
      stableShape r = true := by
  cases sess with
  | none => exact ⟨_, rfl, rfl⟩
  | some e =>
    obtain ⟨bs, hbs⟩ := dataOf_dict rb hb
    have hds : pyGetD (dataOf rb) "days" (PVal.int 7) =
        Except.ok (dictGetD bs "days" (PVal.int 7)) := by rw [hbs]; rfl
    cases hu : findUser db.users e with
    | none =>
      refine ⟨errResp "NotFound" (PVal.str "User not found"), ?_, rfl⟩
      unfold generate_report
      dsimp only
      rw [hds, hu]
    | some u =>
      cases ht : tryBody e (dictGetD bs "days" (PVal.int 7)) lam now db with
      | ok p =>
        obtain ⟨r, db1⟩ := p
        refine ⟨r, ?_, tryBody_shape _ _ _ _ _ _ _ ht⟩
        rw [generate_report_eval db e rb lam now _ hds (by rw [hu]; rfl), ht]
      | error er =>
        refine ⟨errResp "Server" (PVal.str er.msg), ?_, rfl⟩
        rw [generate_report_eval db e rb lam now _ hds (by rw [hu]; rfl), ht]

/-- C1 witness: the stable-shape theorem applied at a concrete input (a
Lambda invocation that raises). -/
theorem generate_report_stable_shape_witness :
    ∃ r, (generate_report db0 (some "u@example.com") Option.none
        (LambdaOutcome.exn "read timeout") 0).result = Except.ok r ∧
      stableShape r = true :=
  generate_report_stable_shape db0 (some "u@example.com") Option.none
    (LambdaOutcome.exn "read timeout") 0 rfl

/-- C2 counterexample: an envelope with the function-error flag whose error
payload is not valid JSON makes `json.loads(raw_err)` raise, and the
top-level handler surfaces the failure as kind Server, not
LambdaFunctionError. -/
theorem lambda_function_error_invalid_payload_server :
    (generate_report db0 (some "u@example.com") Option.none
        (LambdaOutcome.ok ⟨some "Unhandled", Bytes.utf8 "boom"⟩) 0).result =
      Except.ok (errResp "Server" (PVal.str "JSONDecodeError: Expecting value")) := rfl

/-- C2 (amended): for every envelope carrying a truthy function-error flag
whose error payload (after the empty-payload default) is valid JSON, the
handler returns kind LambdaFunctionError with `try_json` of the parsed
payload as details; a payload that fails to parse instead surfaces as kind
Server via the top-level handler. -/
theorem lambda_function_error_json_payload (db : DB) (e : String)
    (rb : Option PVal) (now : Nat) (fe : Option String) (pl : Bytes)
    (u : UserDoc) (j : PVal) (days : PVal)
    (hb : pyGetD (dataOf rb) "days" (PVal.int 7) = Except.ok days)
    (hu : findUser db.users e = some u)
    (hfe : truthyFE fe = true)
    (hj : json_loadsBytes (orDefaultBytes pl) = Except.ok j) :
    (generate_report db (some e) rb (LambdaOutcome.ok ⟨fe, pl⟩) now).result =
      Except.ok (errResp "LambdaFunctionError" (try_json j)) := by
  rw [generate_report_eval db e rb (LambdaOutcome.ok ⟨fe, pl⟩) now days hb
        (by rw [hu]; rfl),
      tryBody_fe e days now db fe pl j hfe hj]

/-- C2 witness: the spec example, `FunctionError: Unhandled` with payload
`errorMessage: timeout`, yields kind LambdaFunctionError with the parsed
object as details. -/
theorem lambda_function_error_json_payload_witness :
    (generate_report db0 (some "u@example.com") Option.none
        (LambdaOutcome.ok ⟨some "Unhandled",
          Bytes.utf8 "\x7b\"errorMessage\": \"timeout\"\x7d"⟩) 0).result =
      Except.ok (errResp "LambdaFunctionError"
        (try_json (PVal.dict [("errorMessage", PVal.str "timeout")]))) :=
  lambda_function_error_json_payload db0 "u@example.com" Option.none 0
    (some "Unhandled") (Bytes.utf8 "\x7b\"errorMessage\": \"timeout\"\x7d") user0
    (PVal.dict [("errorMessage", PVal.str "timeout")]) (PVal.int 7) rfl rfl rfl rfl

/-- C3 counterexample: a user record with `last_sync = 5` goes through a
successful handshake completion for the same email, and the stored
`last_sync` afterwards is null, not 5: the upsert's `$set` payload includes
`last_sync: None` and clobbers the pre-existing value. -/
theorem oauth_upsert_clobbers_last_sync :
    (oauth2callback dbC3 (some "st1") 1 (ExchangeOutcome.ok creds0)
        (ProfileOutcome.ok "u@example.com")).db.users.map UserDoc.last_sync =
      [Option.none] ∧
    dbC3.users.map UserDoc.last_sync = [some 5] ∧
    ([(Option.none : Option Nat)] ≠ [some 5]) :=
  ⟨rfl, rfl, by decide⟩

/-- C3 (amended): a successful handshake completion upserts the whole user
document — email, credentials block, creation time, and `last_sync` reset to
null — so any pre-existing `last_sync` value is overwritten rather than
preserved. -/
theorem oauth_upsert_resets_last_sync (db : DB) (st : String) (now : Nat)
    (d : StateDoc) (creds : PVal) (e : String)
    (hfind : findState db.oauthStates st now = some d) :
    (oauth2callback db (some st) now (ExchangeOutcome.ok creds)
        (ProfileOutcome.ok e)).result = CbResult.success ∧
    findUser (oauth2callback db (some st) now (ExchangeOutcome.ok creds)
        (ProfileOutcome.ok e)).db.users e =
      some { email := e, credentials := creds, created_at := now,
             last_sync := Option.none } := by
  unfold oauth2callback
  dsimp only
  rw [hfind]
  exact ⟨rfl, findUser_upsertUser _ _ _ rfl⟩

/-- C3 witness: the amended upsert behaviour at the concrete database with a
previously synced user. -/
theorem oauth_upsert_resets_last_sync_witness :
    (oauth2callback dbC3 (some "st1") 1 (ExchangeOutcome.ok creds0)
        (ProfileOutcome.ok "u@example.com")).result = CbResult.success ∧
    findUser (oauth2callback dbC3 (some "st1") 1 (ExchangeOutcome.ok creds0)
        (ProfileOutcome.ok "u@example.com")).db.users "u@example.com" =
      some { email := "u@example.com", credentials := creds0, created_at := 1,
             last_sync := Option.none } :=
  oauth_upsert_resets_last_sync dbC3 "st1" 1 ⟨0, "st1", 0, 100⟩ creds0
    "u@example.com" rfl

theorem wrapSummary_not_str (v : PVal) : isStrB (wrapSummary v) = false := by
  cases v <;> rfl

theorem generate_report_success_eval (db : DB) (e : String) (rb : Option PVal)
    (now : Nat) (fe : Option String) (pl : Bytes) (fs : List (String × PVal))
    (days : PVal)
    (hb : pyGetD (dataOf rb) "days" (PVal.int 7) = Except.ok days)
    (hu : (findUser db.users e).isSome = true)
    (hfe : truthyFE fe = false)
    (hp : json_loadsBytes (orDefaultBytes pl) = Except.ok (PVal.dict fs))
    (hsc : pvalEqInt (dictGetD fs "statusCode" (PVal.int 200)) 200 = true) :
    generate_report db (some e) rb (LambdaOutcome.ok ⟨fe, pl⟩) now =
      ⟨Except.ok (okResp db.nextId
          (wrapSummary (try_json (dictGetD fs "body" (PVal.dict fs))))),
       { db with
         reports := db.reports ++
           [{ user_email := e,
              report := wrapSummary (try_json (dictGetD fs "body" (PVal.dict fs))),
              days := days, created_at := now, rid := db.nextId }],
         nextId := db.nextId + 1,
         users := setLastSync db.users e now }, 1, 1⟩ := by
  have heval := generate_report_eval db e rb (LambdaOutcome.ok ⟨fe, pl⟩) now days hb hu
  rw [tryBody_success e days now db fe pl fs hfe hp hsc] at heval
  exact heval

/-- C4 counterexample: a 200 envelope whose body is the number 5 is persisted
and returned as the bare number 5, which is not a structured object — only
bare strings are defended against. -/
theorem report_body_int_not_object :
    (generate_report db0 (some "u@example.com") Option.none
        (LambdaOutcome.ok ⟨Option.none, Bytes.utf8 "\x7b\"statusCode\":200,\"body\":5\x7d"⟩) 0).result =
      Except.ok (okResp 0 (PVal.int 5)) ∧
    isObjB (PVal.int 5) = false :=
  ⟨rfl, rfl⟩

/-- C4 (amended): on the 200 no-function-error path the handler returns and
persists `wrapSummary (try_json body)`; this value is never a bare string,
and whenever the normalized body is still a plain string `s` it is exactly
the wrapped object with a single `summary` field.  Non-string scalars pass
through unchanged, so the result need not be an object. -/
theorem report_body_never_bare_string (db : DB) (e : String) (rb : Option PVal)
    (now : Nat) (fe : Option String) (pl : Bytes) (u : UserDoc)
    (fs : List (String × PVal)) (days : PVal)
    (hb : pyGetD (dataOf rb) "days" (PVal.int 7) = Except.ok days)
    (hu : findUser db.users e = some u)
    (hfe : truthyFE fe = false)
    (hp : json_loadsBytes (orDefaultBytes pl) = Except.ok (PVal.dict fs))
    (hsc : pvalEqInt (dictGetD fs "statusCode" (PVal.int 200)) 200 = true) :
    (generate_report db (some e) rb (LambdaOutcome.ok ⟨fe, pl⟩) now).result =
      Except.ok (okResp db.nextId
        (wrapSummary (try_json (dictGetD fs "body" (PVal.dict fs))))) ∧
    (generate_report db (some e) rb (LambdaOutcome.ok ⟨fe, pl⟩) now).db.reports =
      db.reports ++
        [{ user_email := e,
           report := wrapSummary (try_json (dictGetD fs "body" (PVal.dict fs))),
           days := days, created_at := now, rid := db.nextId }] ∧
    isStrB (wrapSummary (try_json (dictGetD fs "body" (PVal.dict fs)))) = false ∧
    (∀ s, try_json (dictGetD fs "body" (PVal.dict fs)) = PVal.str s →
      wrapSummary (try_json (dictGetD fs "body" (PVal.dict fs))) =
        PVal.dict [("summary", PVal.str s)]) := by
  have h1 := generate_report_success_eval db e rb now fe pl fs days hb
    (by rw [hu]; rfl) hfe hp hsc
  refine ⟨?_, ?_, wrapSummary_not_str _, ?_⟩
  · rw [h1]
  · rw [h1]
  · intro s hs
    rw [hs]
    rfl

/-- C4 witness: the spec example, a bare body string with statusCode 200, is
wrapped as the summary object. -/
theorem report_body_never_bare_string_witness :
    (generate_report db0 (some "u@example.com") Option.none
        (LambdaOutcome.ok ⟨Option.none,
          Bytes.utf8 "\x7b\"statusCode\":200, \"body\":\"no emails found\"\x7d"⟩) 7).result =
      Except.ok (okResp 0 (wrapSummary (try_json (dictGetD
        [("statusCode", PVal.int 200), ("body", PVal.str "no emails found")]
        "body" (PVal.dict
        [("statusCode", PVal.int 200), ("body", PVal.str "no emails found")]))))) ∧
    wrapSummary (try_json (PVal.str "no emails found")) =
      PVal.dict [("summary", PVal.str "no emails found")] :=
  ⟨(report_body_never_bare_string db0 "u@example.com" Option.none 7 Option.none
      (Bytes.utf8 "\x7b\"statusCode\":200, \"body\":\"no emails found\"\x7d") user0
      [("statusCode", PVal.int 200), ("body", PVal.str "no emails found")]
      (PVal.int 7) rfl rfl rfl rfl rfl).1,
   (report_body_never_bare_string db0 "u@example.com" Option.none 7 Option.none
      (Bytes.utf8 "\x7b\"statusCode\":200, \"body\":\"no emails found\"\x7d") user0
      [("statusCode", PVal.int 200), ("body", PVal.str "no emails found")]
      (PVal.int 7) rfl rfl rfl rfl rfl).2.2.2 "no emails found" rfl⟩

/-- C5: every decoded payload object whose status code (defaulting to 200
when absent) is not 200 yields kind ReportGenerationFailed with details
`try_json` of the body (the body field defaulting to the whole payload),
falling back to the raw value when the parse fails. -/
theorem non200_report_generation_failed (db : DB) (e : String) (rb : Option PVal)
    (now : Nat) (fe : Option String) (pl : Bytes) (u : UserDoc)
    (fs : List (String × PVal)) (days : PVal)
    (hb : pyGetD (dataOf rb) "days" (PVal.int 7) = Except.ok days)
    (hu : findUser db.users e = some u)
    (hfe : truthyFE fe = false)
    (hp : json_loadsBytes (orDefaultBytes pl) = Except.ok (PVal.dict fs))
    (hsc : pvalEqInt (dictGetD fs "statusCode" (PVal.int 200)) 200 = false) :
    (generate_report db (some e) rb (LambdaOutcome.ok ⟨fe, pl⟩) now).result =
      Except.ok (errResp "ReportGenerationFailed"
        (try_json (dictGetD fs "body" (PVal.dict fs)))) := by
  rw [generate_report_eval db e rb (LambdaOutcome.ok ⟨fe, pl⟩) now days hb
        (by rw [hu]; rfl),
      tryBody_non200 e days now db fe pl fs hfe hp hsc]
  show Except.ok (errResp "ReportGenerationFailed"
      (try_json (try_json (dictGetD fs "body" (PVal.dict fs))))) = _
  rw [tryJson_idem]

/-- C5 witness: the spec example, statusCode 500 with the unparseable body
string `boom`, yields kind ReportGenerationFailed with details the raw
string. -/
theorem non200_report_generation_failed_witness :
    (generate_report db0 (some "u@example.com") Option.none
        (LambdaOutcome.ok ⟨Option.none,
          Bytes.utf8 "\x7b\"statusCode\":500, \"body\":\"boom\"\x7d"⟩) 0).result =
      Except.ok (errResp "ReportGenerationFailed"
        (try_json (dictGetD
          [("statusCode", PVal.int 500), ("body", PVal.str "boom")] "body"
          (PVal.dict [("statusCode", PVal.int 500), ("body", PVal.str "boom")])))) ∧
    try_json (PVal.str "boom") = PVal.str "boom" :=
  ⟨non200_report_generation_failed db0 "u@example.com" Option.none 0 Option.none
      (Bytes.utf8 "\x7b\"statusCode\":500, \"body\":\"boom\"\x7d") user0
      [("statusCode", PVal.int 500), ("body", PVal.str "boom")]
      (PVal.int 7) rfl rfl rfl rfl rfl, rfl⟩

/-- C6: for every 200 no-function-error response whose body field is a
string that looks like JSON after stripping and parses, normalization parses
it exactly once into the encoded structure, which is returned and persisted
as the report body; in particular the envelope with body `"{\"total\":5}"`
(see the witness) yields report body `total: 5`.  Moreover `try_json`
text-decodes raw-bytes bodies before the same parse attempt, and decoding or
parsing failures keep the raw value as-is rather than raising. -/
theorem body_normalization_single_parse (db : DB) (e : String)
    (rb : Option PVal) (now : Nat) (fe : Option String) (pl : Bytes)
    (u : UserDoc) (fs : List (String × PVal)) (days : PVal)
    (s : String) (v : PVal)
    (hb : pyGetD (dataOf rb) "days" (PVal.int 7) = Except.ok days)
    (hu : findUser db.users e = some u)
    (hfe : truthyFE fe = false)
    (hp : json_loadsBytes (orDefaultBytes pl) = Except.ok (PVal.dict fs))
    (hsc : pvalEqInt (dictGetD fs "statusCode" (PVal.int 200)) 200 = true)
    (hbody : dictGetD fs "body" (PVal.dict fs) = PVal.str s)
    (hlook : startsWithChar (pyStrip s) '{' = true ∨
      startsWithChar (pyStrip s) '[' = true)
    (hparse : json_loads (pyStrip s) = some v) :
    (generate_report db (some e) rb (LambdaOutcome.ok ⟨fe, pl⟩) now).result =
      Except.ok (okResp db.nextId v) ∧
    (generate_report db (some e) rb (LambdaOutcome.ok ⟨fe, pl⟩) now).db.reports =
      db.reports ++ [{ user_email := e, report := v, days := days,
                       created_at := now, rid := db.nextId }] ∧
    try_json (PVal.str s) = v ∧
    (∀ b s2, Bytes.decode b = some s2 →
      try_json (PVal.bytes b) = try_json (PVal.str s2)) ∧
    (∀ b, Bytes.decode b = Option.none → try_json (PVal.bytes b) = PVal.bytes b) ∧
    (∀ s2, json_loads (pyStrip s2) = Option.none →
      try_json (PVal.str s2) = PVal.str s2) := by
  have htj : try_json (PVal.str s) = v := by
    show try_jsonStr s = v
    unfold try_jsonStr
    show (if (startsWithChar (pyStrip s) '{' || startsWithChar (pyStrip s) '[') = true then
        match json_loads (pyStrip s) with
        | some v2 => v2
        | Option.none => PVal.str s
      else PVal.str s) = v
    rw [if_pos ?hcond, hparse]
    case hcond =>
      rcases hlook with h | h
      · rw [h]
        exact Bool.true_or _
      · rw [h]
        exact Bool.or_true _
  have hwrap : wrapSummary v = v := by
    rcases hlook with h | h
    · obtain ⟨fs2, rfl⟩ := json_loads_obj _ _ h hparse
      rfl
    · obtain ⟨xs2, rfl⟩ := json_loads_arr _ _ h hparse
      rfl
  have h1 := generate_report_success_eval db e rb now fe pl fs days hb
    (by rw [hu]; rfl) hfe hp hsc
  rw [hbody, htj, hwrap] at h1
  refine ⟨?_, ?_, htj, ?_, ?_, ?_⟩
  · rw [h1]
  · rw [h1]
  · intro b s2 hd
    cases b with
    | utf8 s0 =>
      injection hd with hd1
      rw [hd1]
      rfl
    | invalid t => exact Option.noConfusion hd
  · intro b hd
    cases b with
    | utf8 s0 => exact Option.noConfusion hd
    | invalid t => rfl
  · intro s2 hns
    show try_jsonStr s2 = PVal.str s2
    unfold try_jsonStr
    show (if (startsWithChar (pyStrip s2) '{' || startsWithChar (pyStrip s2) '[') = true then
        match json_loads (pyStrip s2) with
        | some v2 => v2
        | Option.none => PVal.str s2
      else PVal.str s2) = PVal.str s2
    split
    · rw [hns]
    · rfl

/-- C6 witness: the spec example (body `"{\"total\":5}"` under statusCode
200 parses to the object `total: 5`), plus the keep-raw-on-failure clauses
at concrete inputs. -/
theorem body_normalization_single_parse_witness :
    (generate_report db0 (some "u@example.com") Option.none
        (LambdaOutcome.ok ⟨Option.none,
          Bytes.utf8 "\x7b\"statusCode\":200, \"body\":\"\x7b\\\"total\\\":5\x7d\"\x7d"⟩) 0).result =
      Except.ok (okResp 0 (PVal.dict [("total", PVal.int 5)])) ∧
    try_json (PVal.str "\x7b\"total\":5\x7d") = PVal.dict [("total", PVal.int 5)] ∧
    try_json (PVal.bytes (Bytes.invalid 0)) = PVal.bytes (Bytes.invalid 0) ∧
    try_json (PVal.str "\x7bnope") = PVal.str "\x7bnope" :=
  ⟨(body_normalization_single_parse db0 "u@example.com" Option.none 0 Option.none
      (Bytes.utf8 "\x7b\"statusCode\":200, \"body\":\"\x7b\\\"total\\\":5\x7d\"\x7d") user0
      [("statusCode", PVal.int 200), ("body", PVal.str "\x7b\"total\":5\x7d")]
      (PVal.int 7) "\x7b\"total\":5\x7d" (PVal.dict [("total", PVal.int 5)])
      rfl rfl rfl rfl rfl rfl (Or.inl rfl) rfl).1,
   (body_normalization_single_parse db0 "u@example.com" Option.none 0 Option.none
      (Bytes.utf8 "\x7b\"statusCode\":200, \"body\":\"\x7b\\\"total\\\":5\x7d\"\x7d") user0
      [("statusCode", PVal.int 200), ("body", PVal.str "\x7b\"total\":5\x7d")]
      (PVal.int 7) "\x7b\"total\":5\x7d" (PVal.dict [("total", PVal.int 5)])
      rfl rfl rfl rfl rfl rfl (Or.inl rfl) rfl).2.2.1,
   (body_normalization_single_parse db0 "u@example.com" Option.none 0 Option.none
      (Bytes.utf8 "\x7b\"statusCode\":200, \"body\":\"\x7b\\\"total\\\":5\x7d\"\x7d") user0
      [("statusCode", PVal.int 200), ("body", PVal.str "\x7b\"total\":5\x7d")]
      (PVal.int 7) "\x7b\"total\":5\x7d" (PVal.dict [("total", PVal.int 5)])
      rfl rfl rfl rfl rfl rfl (Or.inl rfl) rfl).2.2.2.2.1 (Bytes.invalid 0) rfl,
   (body_normalization_single_parse db0 "u@example.com" Option.none 0 Option.none
      (Bytes.utf8 "\x7b\"statusCode\":200, \"body\":\"\x7b\\\"total\\\":5\x7d\"\x7d") user0
      [("statusCode", PVal.int 200), ("body", PVal.str "\x7b\"total\":5\x7d")]
      (PVal.int 7) "\x7b\"total\":5\x7d" (PVal.dict [("total", PVal.int 5)])
      rfl rfl rfl rfl rfl rfl (Or.inl rfl) rfl).2.2.2.2.2 "\x7bnope" rfl⟩
/-- C7: a valid, unexpired handshake state is consumed by the first
completion call — the matched document is deleted before the exchange and
profile steps, whatever their outcomes — and a second call presenting the
same state value gets InvalidOrExpiredState.  The ledger is assumed
well-formed: distinct document ids and at most one document per state value,
which holds for ledgers produced by the login handler. -/
theorem oauth_state_single_use (db : DB) (st : String) (now now2 : Nat)
    (d : StateDoc) (ex ex2 : ExchangeOutcome) (pr pr2 : ProfileOutcome)
    (hids : (db.oauthStates.map StateDoc.sid).Nodup)
    (hst : ∀ d1, d1 ∈ db.oauthStates → ∀ d2, d2 ∈ db.oauthStates →
      d1.state = d2.state → d1 = d2)
    (hfind : findState db.oauthStates st now = some d) :
    (∀ e2, e2 ∈ (oauth2callback db (some st) now ex pr).db.oauthStates →
      e2.state ≠ st) ∧
    (oauth2callback (oauth2callback db (some st) now ex pr).db (some st) now2
        ex2 pr2).result = CbResult.invalidOrExpiredState := by
  have hno : ∀ e2, e2 ∈ (oauth2callback db (some st) now ex pr).db.oauthStates →
      e2.state ≠ st := by
    rw [oauth2callback_states db st now ex pr d hfind]
    exact deleteById_no_state db.oauthStates st now d hids hst hfind
  refine ⟨hno, ?_⟩
  generalize hdb1 : (oauth2callback db (some st) now ex pr).db = db1 at hno
  have hnone := findState_none_of_no_state db1.oauthStates st now2 hno
  unfold oauth2callback
  dsimp only
  rw [hnone]

/-- C7 witness: a first completion whose exchange and profile steps both fail
still consumes the state, and the replayed completion is rejected. -/
theorem oauth_state_single_use_witness :
    (∀ e2, e2 ∈ (oauth2callback dbC3 (some "st1") 1
        (ExchangeOutcome.exn "exchange failed")
        (ProfileOutcome.exn "profile failed")).db.oauthStates →
      e2.state ≠ "st1") ∧
    (oauth2callback (oauth2callback dbC3 (some "st1") 1
        (ExchangeOutcome.exn "exchange failed")
        (ProfileOutcome.exn "profile failed")).db (some "st1") 2
        (ExchangeOutcome.ok creds0)
        (ProfileOutcome.ok "u@example.com")).result =
      CbResult.invalidOrExpiredState :=
  oauth_state_single_use dbC3 "st1" 1 2 ⟨0, "st1", 0, 100⟩
    (ExchangeOutcome.exn "exchange failed") (ExchangeOutcome.ok creds0)
    (ProfileOutcome.exn "profile failed") (ProfileOutcome.ok "u@example.com")
    (by decide) (by decide) rfl

/-- C8: two sequential successful calls are independent side-effecting
operations: each persists its own Report document, the stored identifiers are
distinct, and `last_sync` is advanced to the call time on both calls. -/
theorem generate_report_calls_independent (db : DB) (e : String)
    (rb : Option PVal) (t1 t2 : Nat) (fe1 fe2 : Option String)
    (pl1 pl2 : Bytes) (fs1 fs2 : List (String × PVal)) (days : PVal)
    (u : UserDoc)
    (hb : pyGetD (dataOf rb) "days" (PVal.int 7) = Except.ok days)
    (hu : findUser db.users e = some u)
    (hfe1 : truthyFE fe1 = false)
    (hp1 : json_loadsBytes (orDefaultBytes pl1) = Except.ok (PVal.dict fs1))
    (hsc1 : pvalEqInt (dictGetD fs1 "statusCode" (PVal.int 200)) 200 = true)
    (hfe2 : truthyFE fe2 = false)
    (hp2 : json_loadsBytes (orDefaultBytes pl2) = Except.ok (PVal.dict fs2))
    (hsc2 : pvalEqInt (dictGetD fs2 "statusCode" (PVal.int 200)) 200 = true) :
    (generate_report db (some e) rb (LambdaOutcome.ok ⟨fe1, pl1⟩) t1).result =
      Except.ok (okResp db.nextId
        (wrapSummary (try_json (dictGetD fs1 "body" (PVal.dict fs1))))) ∧
    (generate_report (generate_report db (some e) rb
        (LambdaOutcome.ok ⟨fe1, pl1⟩) t1).db (some e) rb
        (LambdaOutcome.ok ⟨fe2, pl2⟩) t2).result =
      Except.ok (okResp (db.nextId + 1)
        (wrapSummary (try_json (dictGetD fs2 "body" (PVal.dict fs2))))) ∧
    db.nextId ≠ db.nextId + 1 ∧
    (generate_report (generate_report db (some e) rb
        (LambdaOutcome.ok ⟨fe1, pl1⟩) t1).db (some e) rb
        (LambdaOutcome.ok ⟨fe2, pl2⟩) t2).db.reports =
      db.reports ++
        [{ user_email := e,
           report := wrapSummary (try_json (dictGetD fs1 "body" (PVal.dict fs1))),
           days := days, created_at := t1, rid := db.nextId },
         { user_email := e,
           report := wrapSummary (try_json (dictGetD fs2 "body" (PVal.dict fs2))),
           days := days, created_at := t2, rid := db.nextId + 1 }] ∧
    findUser (generate_report db (some e) rb
        (LambdaOutcome.ok ⟨fe1, pl1⟩) t1).db.users e =
      some { u with last_sync := some t1 } ∧
    findUser (generate_report (generate_report db (some e) rb
        (LambdaOutcome.ok ⟨fe1, pl1⟩) t1).db (some e) rb
        (LambdaOutcome.ok ⟨fe2, pl2⟩) t2).db.users e =
      some { u with last_sync := some t2 } := by
  have h1 := generate_report_success_eval db e rb t1 fe1 pl1 fs1 days hb
    (by rw [hu]; rfl) hfe1 hp1 hsc1
  have hu1 : findUser (generate_report db (some e) rb
      (LambdaOutcome.ok ⟨fe1, pl1⟩) t1).db.users e =
      some { u with last_sync := some t1 } := by
    rw [h1]
    exact findUser_setLastSync db.users e t1 u hu
  have h2 := generate_report_success_eval
    (generate_report db (some e) rb (LambdaOutcome.ok ⟨fe1, pl1⟩) t1).db e rb t2
    fe2 pl2 fs2 days hb (by rw [hu1]; rfl) hfe2 hp2 hsc2
  refine ⟨?_, ?_, Nat.ne_of_lt (Nat.lt_succ_self _), ?_, hu1, ?_⟩
  · rw [h1]
  · rw [h2, h1]
  · rw [h2, h1]
    dsimp only
    rw [List.append_assoc]
    rfl
  · rw [h2]
    exact findUser_setLastSync
      (generate_report db (some e) rb (LambdaOutcome.ok ⟨fe1, pl1⟩) t1).db.users
      e t2 { u with last_sync := some t1 } hu1

/-- C8 witness: two successful calls with bodies 1 and 2 (status code
defaulted to 200) produce report ids 0 and 1. -/
theorem generate_report_calls_independent_witness :
    (generate_report db0 (some "u@example.com") Option.none
        (LambdaOutcome.ok ⟨Option.none, Bytes.utf8 "\x7b\"body\":1\x7d"⟩) 1).result =
      Except.ok (okResp 0 (wrapSummary (try_json (dictGetD
        [("body", PVal.int 1)] "body" (PVal.dict [("body", PVal.int 1)]))))) ∧
    (generate_report (generate_report db0 (some "u@example.com") Option.none
        (LambdaOutcome.ok ⟨Option.none, Bytes.utf8 "\x7b\"body\":1\x7d"⟩) 1).db
        (some "u@example.com") Option.none
        (LambdaOutcome.ok ⟨Option.none, Bytes.utf8 "\x7b\"body\":2\x7d"⟩) 2).result =
      Except.ok (okResp 1 (wrapSummary (try_json (dictGetD
        [("body", PVal.int 2)] "body" (PVal.dict [("body", PVal.int 2)]))))) ∧
    (0 : Nat) ≠ 1 :=
  ⟨(generate_report_calls_independent db0 "u@example.com" Option.none 1 2
      Option.none Option.none (Bytes.utf8 "\x7b\"body\":1\x7d")
      (Bytes.utf8 "\x7b\"body\":2\x7d") [("body", PVal.int 1)]
      [("body", PVal.int 2)] (PVal.int 7) user0
      rfl rfl rfl rfl rfl rfl rfl rfl).1,
   (generate_report_calls_independent db0 "u@example.com" Option.none 1 2
      Option.none Option.none (Bytes.utf8 "\x7b\"body\":1\x7d")
      (Bytes.utf8 "\x7b\"body\":2\x7d") [("body", PVal.int 1)]
      [("body", PVal.int 2)] (PVal.int 7) user0
      rfl rfl rfl rfl rfl rfl rfl rfl).2.1,
   (generate_report_calls_independent db0 "u@example.com" Option.none 1 2
      Option.none Option.none (Bytes.utf8 "\x7b\"body\":1\x7d")
      (Bytes.utf8 "\x7b\"body\":2\x7d") [("body", PVal.int 1)]
      [("body", PVal.int 2)] (PVal.int 7) user0
      rfl rfl rfl rfl rfl rfl rfl rfl).2.2.1⟩

end InboxIntel
